import Mathlib

/-!
Verification of the Smart Data Processing Framework against its
natural-language specification.

The development shallowly embeds the C++ sources:

* `DataQueue` models `DataQueue<T>` (the bounded blocking queue).
  Blocking calls are modelled with sequential semantics: a call observes
  the queue state at its entry and no other thread acts during its wait.
  `enqueue`/`dequeue` therefore return `Option (state × result)`, where
  `none` means the call never returns (it blocks, and in the sequential
  trace nothing can wake it).  For the shutdown cases this is exact even
  with concurrency: the shutdown flag is never cleared (proved below), so
  a wait predicate falsified by `shutdown_ = true` stays false forever.
* `ProcessingSystem` models `ProcessingSystem<T>` at the API level: the
  lifecycle and submit/retrieve calls of the external thread.  Worker
  threads only move items between queues and never touch the flags the
  claims are about.
* `StatisticalProcessor` and the two `ProcessorFactory` instantiations
  model `Processor.h` / `ProcessorFactory.h` at the integer item type
  (`Int`, the representative numeric `T`; the C++ templates are uniform
  in `T`).  C++ `double` parameters are carried as `Rat`; `static_cast`
  to an integer type truncates toward zero, modelled by `ratToIntTrunc`.
-/

universe u

/-- State of `DataQueue<T>` (DataQueue.h, lines 136-143): bounded FIFO
with a shutdown flag.  `queue_` holds the items front-first; the C++
`push_back` appends at the tail. -/
structure DataQueue (T : Type u) where
  maxSize_ : Nat
  queue_ : List T
  shutdown_ : Bool
deriving DecidableEq

variable {T : Type u}

/-- The `DataQueue(maxSize)` constructor: empty deque, `shutdown_(false)`. -/
def DataQueue.mkNew (T : Type u) (maxSize : Nat) : DataQueue T :=
  { maxSize_ := maxSize, queue_ := [], shutdown_ := false }

/-- The wait predicate handed to `notFull_` in `enqueue`:
`queue_.size() < maxSize_ && !shutdown_`. -/
def DataQueue.notFullPred (q : DataQueue T) : Bool :=
  decide (q.queue_.length < q.maxSize_) && !q.shutdown_

/-- The wait predicate handed to `notEmpty_` in `dequeue`:
`!queue_.empty() || shutdown_`. -/
def DataQueue.notEmptyPred (q : DataQueue T) : Bool :=
  !q.queue_.isEmpty || q.shutdown_

/-- The tail of `enqueue` after the wait completes:
`if (shutdown_) return false; queue_.push_back(item); return true`. -/
def DataQueue.enqueueGo (q : DataQueue T) (item : T) : DataQueue T × Bool :=
  if q.shutdown_ then (q, false)
  else ({ q with queue_ := q.queue_ ++ [item] }, true)

/-- `DataQueue::enqueue(item, timeoutMs = -1) -> bool` (lines 22-42).
With `timeoutMs > 0` the call waits on `notFullPred` up to the timeout
and returns false on timeout; otherwise it waits indefinitely.  In the
sequential semantics a wait whose predicate is false at entry never
completes, so the timed variant returns `false` and the indefinite
variant blocks (`none`). -/
def DataQueue.enqueue (q : DataQueue T) (item : T) (timeoutMs : Int) :
    Option (DataQueue T × Bool) :=
  if timeoutMs > 0 then
    if q.notFullPred then some (q.enqueueGo item) else some (q, false)
  else
    if q.notFullPred then some (q.enqueueGo item) else none

/-- The tail of `dequeue` after the wait completes:
`if (queue_.empty()) return nullopt; item = front; pop_front; return item`. -/
def DataQueue.dequeueGo (q : DataQueue T) : DataQueue T × Option T :=
  match q.queue_ with
  | [] => (q, none)
  | x :: rest => ({ q with queue_ := rest }, some x)

/-- `DataQueue::dequeue(timeoutMs = -1) -> optional<T>` (lines 45-68),
modelled like `enqueue`: the timed wait returns the empty result on
timeout, the indefinite wait blocks when its predicate is false. -/
def DataQueue.dequeue (q : DataQueue T) (timeoutMs : Int) :
    Option (DataQueue T × Option T) :=
  if timeoutMs > 0 then
    if q.notEmptyPred then some q.dequeueGo else some (q, none)
  else
    if q.notEmptyPred then some q.dequeueGo else none

/-- `DataQueue::peek()` (lines 71-77). -/
def DataQueue.peek (q : DataQueue T) : Option T :=
  q.queue_.head?

/-- `DataQueue::size()` (lines 80-83). -/
def DataQueue.size (q : DataQueue T) : Nat :=
  q.queue_.length

/-- `DataQueue::empty()` (lines 86-89). -/
def DataQueue.empty (q : DataQueue T) : Bool :=
  q.queue_.isEmpty

/-- `DataQueue::full()` (lines 92-95): `queue_.size() >= maxSize_`. -/
def DataQueue.full (q : DataQueue T) : Bool :=
  decide (q.maxSize_ ≤ q.queue_.length)

/-- `DataQueue::clear()` (lines 98-104): pops every element. -/
def DataQueue.clear (q : DataQueue T) : DataQueue T :=
  { q with queue_ := [] }

/-- `DataQueue::shutdown()` (lines 107-114): sets the flag and notifies
all waiters (the notifications have no effect on the state). -/
def DataQueue.shutdown (q : DataQueue T) : DataQueue T :=
  { q with shutdown_ := true }

/-- `DataQueue::isShutdown()` (lines 117-120). -/
def DataQueue.isShutdown (q : DataQueue T) : Bool :=
  q.shutdown_

/-- One call of the queue API, for quantifying over operation sequences. -/
inductive QueueOp (T : Type u) where
  | enqueue (item : T) (timeoutMs : Int)
  | dequeue (timeoutMs : Int)
  | peek
  | clear
  | shutdown

/-- The state reached after one API call.  A call that blocks forever
(`none`) has not modified the state, so the state is unchanged. -/
def DataQueue.applyOp (q : DataQueue T) (op : QueueOp T) : DataQueue T :=
  match op with
  | QueueOp.enqueue item t =>
    match q.enqueue item t with
    | some (q2, _) => q2
    | none => q
  | QueueOp.dequeue t =>
    match q.dequeue t with
    | some (q2, _) => q2
    | none => q
  | QueueOp.peek => q
  | QueueOp.clear => q.clear
  | QueueOp.shutdown => q.shutdown

/-- Repeated `dequeue` with the same timeout: `n` calls, stopping early
when a call returns the empty result or blocks; collects the items. -/
def DataQueue.dequeueN (q : DataQueue T) (timeoutMs : Int) : Nat → DataQueue T × List T
  | 0 => (q, [])
  | Nat.succ n =>
    match q.dequeue timeoutMs with
    | none => (q, [])
    | some (q2, none) => (q2, [])
    | some (q2, some x) =>
      match q2.dequeueN timeoutMs n with
      | (q3, l) => (q3, x :: l)

theorem DataQueue.enqueue_eq (q : DataQueue T) (item : T) (t : Int) :
    q.enqueue item t =
      if q.notFullPred then some ({ q with queue_ := q.queue_ ++ [item] }, true)
      else if t > 0 then some (q, false) else none := by
  unfold enqueue enqueueGo notFullPred
  by_cases ht : t > 0 <;> by_cases hs : q.shutdown_ = true <;>
    by_cases hl : q.queue_.length < q.maxSize_ <;> simp [ht, hs, hl]

theorem DataQueue.dequeue_eq (q : DataQueue T) (t : Int) :
    q.dequeue t =
      if q.notEmptyPred then some q.dequeueGo
      else if t > 0 then some (q, none) else none := by
  unfold dequeue
  by_cases ht : t > 0 <;> by_cases hp : q.notEmptyPred = true <;> simp [ht, hp]

theorem DataQueue.applyOp_step (q : DataQueue T) (op : QueueOp T)
    (h : q.queue_.length ≤ q.maxSize_) :
    (q.applyOp op).queue_.length ≤ (q.applyOp op).maxSize_ ∧
    (q.applyOp op).maxSize_ = q.maxSize_ ∧
    (q.shutdown_ = true → (q.applyOp op).shutdown_ = true) := by
  cases op with
  | enqueue item t =>
    simp only [applyOp, enqueue_eq]
    by_cases hp : q.notFullPred = true
    · have hl : q.queue_.length < q.maxSize_ := by
        simp [notFullPred] at hp
        exact hp.1
      simp only [hp, if_true]
      refine ⟨?_, ?_, ?_⟩
      · simp only [List.length_append, List.length_cons, List.length_nil]
        omega
      · trivial
      · exact fun hs => hs
    · simp only [hp]
      by_cases ht : t > 0 <;> simp [ht, h]
  | dequeue t =>
    simp only [applyOp, dequeue_eq]
    by_cases hp : q.notEmptyPred = true
    · simp only [hp, if_true]
      cases hq : q.queue_ with
      | nil => simp [dequeueGo, hq, h]
      | cons x rest =>
        rw [hq] at h
        simp only [List.length_cons] at h
        simp only [dequeueGo, hq]
        refine ⟨?_, ?_, ?_⟩
        · omega
        · trivial
        · exact fun hs => hs
    · simp only [hp]
      by_cases ht : t > 0 <;> simp [ht, h]
  | peek => exact ⟨h, rfl, fun hs => hs⟩
  | clear => exact ⟨by simp [DataQueue.applyOp, DataQueue.clear], rfl, fun hs => hs⟩
  | shutdown => exact ⟨h, rfl, fun _ => rfl⟩

/-- C4: for every sequence of queue operations (enqueue, dequeue, peek,
clear, shutdown) from a state whose length is within capacity, the
length never exceeds the capacity fixed at construction (which no
operation changes), and once the shutdown flag is set no subsequent
operation ever clears it. -/
theorem DataQueue.ops_invariant (q : DataQueue T) (ops : List (QueueOp T))
    (h : q.queue_.length ≤ q.maxSize_) :
    (ops.foldl DataQueue.applyOp q).queue_.length ≤ q.maxSize_ ∧
    (ops.foldl DataQueue.applyOp q).maxSize_ = q.maxSize_ ∧
    (q.shutdown_ = true → (ops.foldl DataQueue.applyOp q).shutdown_ = true) := by
  induction ops generalizing q with
  | nil => exact ⟨h, rfl, fun hs => hs⟩
  | cons op rest ih =>
    simp only [List.foldl_cons]
    obtain ⟨h1, h2, h3⟩ := DataQueue.applyOp_step q op h
    refine ⟨?_, ?_, ?_⟩
    · rw [← h2]
      exact (ih (q.applyOp op) h1).1
    · rw [(ih (q.applyOp op) h1).2.1, h2]
    · intro hs
      exact (ih (q.applyOp op) h1).2.2 (h3 hs)

theorem DataQueue.ops_invariant_witness :
    (DataQueue.mkNew Nat 2).queue_.length ≤ (DataQueue.mkNew Nat 2).maxSize_ ∧
    (([QueueOp.enqueue 5 100, QueueOp.enqueue 6 100, QueueOp.enqueue 7 100,
       QueueOp.shutdown, QueueOp.dequeue 100, QueueOp.clear,
       QueueOp.peek].foldl DataQueue.applyOp
        (DataQueue.mkNew Nat 2)).queue_.length ≤ (DataQueue.mkNew Nat 2).maxSize_ ∧
     ([QueueOp.enqueue 5 100, QueueOp.enqueue 6 100, QueueOp.enqueue 7 100,
       QueueOp.shutdown, QueueOp.dequeue 100, QueueOp.clear,
       QueueOp.peek].foldl DataQueue.applyOp
        (DataQueue.mkNew Nat 2)).maxSize_ = (DataQueue.mkNew Nat 2).maxSize_ ∧
     ((DataQueue.mkNew Nat 2).shutdown_ = true →
      ([QueueOp.enqueue 5 100, QueueOp.enqueue 6 100, QueueOp.enqueue 7 100,
        QueueOp.shutdown, QueueOp.dequeue 100, QueueOp.clear,
        QueueOp.peek].foldl DataQueue.applyOp
         (DataQueue.mkNew Nat 2)).shutdown_ = true)) :=
  ⟨by decide,
   DataQueue.ops_invariant (DataQueue.mkNew Nat 2)
     [QueueOp.enqueue 5 100, QueueOp.enqueue 6 100, QueueOp.enqueue 7 100,
      QueueOp.shutdown, QueueOp.dequeue 100, QueueOp.clear, QueueOp.peek]
     (by decide)⟩

/-- C2: evaluation at the failing input.  On a queue whose shutdown flag
is set, enqueue with a positive timeout terminates and returns false,
but the indefinite-block variant (timeoutMs of 0 or the default -1)
never returns: its wait predicate demands the shutdown flag be clear,
and the flag is never cleared again, so the notify from shutdown() (and
every later wake-up) finds the predicate false and sleeps again.  This
refutes the claim that after shutdown every enqueue variant terminates
and returns false. -/
theorem DataQueue.enqueue_after_shutdown_eval :
    (DataQueue.mkNew Nat 3).shutdown.enqueue 7 100
        = some ((DataQueue.mkNew Nat 3).shutdown, false)
  ∧ (DataQueue.mkNew Nat 3).shutdown.enqueue 7 0 = none
  ∧ (DataQueue.mkNew Nat 3).shutdown.enqueue 7 (-1) = none :=
  ⟨rfl, rfl, rfl⟩

/-- C3: for every queue holding items l in FIFO order at the moment
shutdown() is called, subsequent dequeue calls (with any timeout) still
return the elements of l in order, and once the queue is empty every
further dequeue returns the empty result. -/
theorem DataQueue.dequeue_fifo_after_shutdown (mx : Nat) (l : List T)
    (t : Int) (n : Nat) (hn : l.length ≤ n) :
    DataQueue.dequeueN ⟨mx, l, true⟩ t n = (⟨mx, [], true⟩, l) ∧
    DataQueue.dequeue (⟨mx, [], true⟩ : DataQueue T) t
      = some (⟨mx, [], true⟩, none) := by
  constructor
  · induction l generalizing n with
    | nil =>
      cases n with
      | zero => rfl
      | succ m => simp [dequeueN, dequeue_eq, notEmptyPred, dequeueGo]
    | cons x rest ih =>
      cases n with
      | zero => simp at hn
      | succ m =>
        have hm : rest.length ≤ m := by simpa using hn
        simp [dequeueN, dequeue_eq, notEmptyPred, dequeueGo, ih m hm]
  · simp [dequeue_eq, notEmptyPred, dequeueGo]

theorem DataQueue.dequeue_fifo_after_shutdown_witness :
    ([1, 2].length ≤ 2) ∧
    (DataQueue.dequeueN (⟨3, [1, 2], true⟩ : DataQueue Nat) (-1) 2
        = (⟨3, [], true⟩, [1, 2]) ∧
     DataQueue.dequeue (⟨3, [], true⟩ : DataQueue Nat) (-1)
        = some (⟨3, [], true⟩, none)) :=
  ⟨by decide, DataQueue.dequeue_fifo_after_shutdown 3 [1, 2] (-1) 2 (by decide)⟩

/-- C5: on a fresh queue of capacity 3, enqueues of A, B, C succeed, the
queue is then full, an enqueue of D with a short positive timeout times
out and returns false leaving the queue unchanged, a dequeue returns A
(the FIFO front), and retrying the enqueue of D then succeeds. -/
theorem DataQueue.capacity3_scenario :
    (DataQueue.mkNew String 3).enqueue "A" 100
        = some (⟨3, ["A"], false⟩, true)
  ∧ DataQueue.enqueue (⟨3, ["A"], false⟩ : DataQueue String) "B" 100
        = some (⟨3, ["A", "B"], false⟩, true)
  ∧ DataQueue.enqueue (⟨3, ["A", "B"], false⟩ : DataQueue String) "C" 100
        = some (⟨3, ["A", "B", "C"], false⟩, true)
  ∧ DataQueue.full (⟨3, ["A", "B", "C"], false⟩ : DataQueue String) = true
  ∧ DataQueue.enqueue (⟨3, ["A", "B", "C"], false⟩ : DataQueue String) "D" 1
        = some (⟨3, ["A", "B", "C"], false⟩, false)
  ∧ DataQueue.dequeue (⟨3, ["A", "B", "C"], false⟩ : DataQueue String) 100
        = some (⟨3, ["B", "C"], false⟩, some "A")
  ∧ DataQueue.enqueue (⟨3, ["B", "C"], false⟩ : DataQueue String) "D" 100
        = some (⟨3, ["B", "C", "D"], false⟩, true) :=
  ⟨rfl, rfl, rfl, rfl, rfl, rfl, rfl⟩

/-- State of `ProcessingSystem<T>` (ProcessingSystem.h, lines 200-211).
`workers_` is the size of the worker-thread vector; `processor_` holds
the installed processor's name (a null shared_ptr is `none`).  The
lifecycle and submit/retrieve calls below model the calling thread;
worker threads only dequeue from the input queue and enqueue onto the
output queue, and never touch `isRunning_`, `workers_`, `processor_`
or either queue's shutdown flag. -/
structure ProcessingSystem (T : Type u) where
  numWorkers_ : Nat
  inputQueue_ : DataQueue T
  outputQueue_ : DataQueue T
  workers_ : Nat
  isRunning_ : Bool
  processor_ : Option String
  totalProcessed_ : Nat
  totalErrors_ : Nat
deriving DecidableEq

/-- The `ProcessingSystem(numWorkers, queueSize)` constructor (lines
19-27): both queues built with the same capacity, not running, no
processor, zero counters, no threads. -/
def ProcessingSystem.init (T : Type u) (numWorkers queueSize : Nat) :
    ProcessingSystem T :=
  { numWorkers_ := numWorkers,
    inputQueue_ := DataQueue.mkNew T queueSize,
    outputQueue_ := DataQueue.mkNew T queueSize,
    workers_ := 0, isRunning_ := false, processor_ := none,
    totalProcessed_ := 0, totalErrors_ := 0 }

/-- `ProcessingSystem::start()` (lines 42-60): `isRunning_.exchange(true)`
makes a second start a no-op; with no processor the flag is reset to
false and no workers are spawned; otherwise `numWorkers_` threads are
appended to the worker vector. -/
def ProcessingSystem.start (s : ProcessingSystem T) : ProcessingSystem T :=
  if s.isRunning_ then s
  else if s.processor_.isNone then { s with isRunning_ := false }
  else { s with isRunning_ := true, workers_ := s.workers_ + s.numWorkers_ }

/-- `ProcessingSystem::stop()` (lines 63-83): a no-op unless running;
otherwise clears the running flag, shuts down the *input* queue only,
joins all workers and clears the thread vector. -/
def ProcessingSystem.stop (s : ProcessingSystem T) : ProcessingSystem T :=
  if !s.isRunning_ then s
  else { s with isRunning_ := false,
                inputQueue_ := s.inputQueue_.shutdown,
                workers_ := 0 }

/-- `ProcessingSystem::setProcessor` (lines 86-90), recorded by name. -/
def ProcessingSystem.setProcessor (s : ProcessingSystem T) (name : String) :
    ProcessingSystem T :=
  { s with processor_ := some name }

/-- `ProcessingSystem::addData(data, timeoutMs = 1000)` (lines 101-107):
rejected outright when not running, otherwise forwarded to the input
queue's bounded enqueue. -/
def ProcessingSystem.addData (s : ProcessingSystem T) (data : T)
    (timeoutMs : Int) : Option (ProcessingSystem T × Bool) :=
  if !s.isRunning_ then some (s, false)
  else
    match s.inputQueue_.enqueue data timeoutMs with
    | none => none
    | some (q, b) => some ({ s with inputQueue_ := q }, b)

/-- `ProcessingSystem::getResult(timeoutMs = 1000)` (lines 110-112):
a bounded dequeue from the output queue. -/
def ProcessingSystem.getResult (s : ProcessingSystem T) (timeoutMs : Int) :
    Option (ProcessingSystem T × Option T) :=
  match s.outputQueue_.dequeue timeoutMs with
  | none => none
  | some (q, r) => some ({ s with outputQueue_ := q }, r)

/-- C1: evaluation at the failing input.  After a completed stop(), a
further start() with a processor installed sets the running flag and
spawns workers again, but the input queue's shutdown flag — set by
stop() and cleared by nothing — makes the subsequent submit on the
empty (far below capacity) input queue time out and return false with
nothing enqueued.  This refutes the claim that the pipeline returns to
a working Running state: submit never again returns true after the
first stop(). -/
theorem ProcessingSystem.restart_submit_fails :
    ((((ProcessingSystem.init Nat 2 10).setProcessor
          "NumericProcessor").start.stop.start).isRunning_ = true)
  ∧ ((((ProcessingSystem.init Nat 2 10).setProcessor
          "NumericProcessor").start.stop.start).inputQueue_.shutdown_ = true)
  ∧ ((((ProcessingSystem.init Nat 2 10).setProcessor
          "NumericProcessor").start.stop.start).inputQueue_.queue_.length = 0)
  ∧ ((((ProcessingSystem.init Nat 2 10).setProcessor
          "NumericProcessor").start.stop.start).addData 5 100
      = some ((((ProcessingSystem.init Nat 2 10).setProcessor
          "NumericProcessor").start.stop.start), false)) :=
  ⟨rfl, rfl, rfl, rfl⟩

/-- C7: submit on a pipeline that is not running returns false without
touching any state; on a running pipeline it is forwarded to the input
queue's bounded enqueue and yields exactly that enqueue's outcome (the
same boolean, the input queue replaced by the enqueue's result, every
other field unchanged; it blocks exactly when the enqueue blocks). -/
theorem ProcessingSystem.addData_spec (s : ProcessingSystem T) (x : T)
    (t : Int) :
    (s.isRunning_ = false → s.addData x t = some (s, false)) ∧
    (s.isRunning_ = true →
      ((s.inputQueue_.enqueue x t = none → s.addData x t = none) ∧
       (∀ q b, s.inputQueue_.enqueue x t = some (q, b) →
          s.addData x t = some ({ s with inputQueue_ := q }, b)))) := by
  constructor
  · intro h
    simp [ProcessingSystem.addData, h]
  · intro h
    constructor
    · intro he
      simp [ProcessingSystem.addData, h, he]
    · intro q b he
      simp [ProcessingSystem.addData, h, he]

theorem ProcessingSystem.addData_spec_witness :
    (ProcessingSystem.init Nat 1 3).isRunning_ = false ∧
    (ProcessingSystem.init Nat 1 3).addData 5 100
      = some (ProcessingSystem.init Nat 1 3, false) :=
  ⟨rfl, (ProcessingSystem.addData_spec (ProcessingSystem.init Nat 1 3)
          5 100).1 rfl⟩

/-- C8: start() on a non-running pipeline with no processor installed is
a non-erroring no-op that leaves the state unchanged: afterwards the
running flag is false and no worker threads have been spawned. -/
theorem ProcessingSystem.start_no_processor (s : ProcessingSystem T)
    (h1 : s.isRunning_ = false) (h2 : s.processor_ = none) :
    s.start = s ∧ s.start.isRunning_ = false ∧
    s.start.workers_ = s.workers_ := by
  have hs : s.start = s := by
    cases s
    simp_all [ProcessingSystem.start]
  exact ⟨hs, by rw [hs]; exact h1, by rw [hs]⟩

theorem ProcessingSystem.start_no_processor_witness :
    (ProcessingSystem.init Nat 2 5).isRunning_ = false ∧
    (ProcessingSystem.init Nat 2 5).processor_ = none ∧
    ((ProcessingSystem.init Nat 2 5).start = ProcessingSystem.init Nat 2 5 ∧
     (ProcessingSystem.init Nat 2 5).start.isRunning_ = false ∧
     (ProcessingSystem.init Nat 2 5).start.workers_
        = (ProcessingSystem.init Nat 2 5).workers_) :=
  ⟨rfl, rfl,
   ProcessingSystem.start_no_processor (ProcessingSystem.init Nat 2 5) rfl rfl⟩

/-- C10: stop() signals shutdown only on the input queue and leaves the
output queue exactly as it was, so every result already on the output
queue remains retrievable afterwards (a retrieve returns the FIFO
front), and a retrieve with a positive timeout on an empty, not shut
down output queue waits out its timeout and returns the empty result
rather than failing. -/
theorem ProcessingSystem.stop_output_frame (s : ProcessingSystem T)
    (t : Int) (ht : t > 0) :
    (s.stop.outputQueue_ = s.outputQueue_) ∧
    (s.stop.inputQueue_.shutdown_
        = (s.isRunning_ || s.inputQueue_.shutdown_)) ∧
    (s.outputQueue_.queue_ = [] → s.outputQueue_.shutdown_ = false →
      s.stop.getResult t = some (s.stop, none)) ∧
    (∀ x rest, s.outputQueue_.queue_ = x :: rest →
      s.stop.getResult t
        = some ({ s.stop with
                    outputQueue_ := { s.outputQueue_ with queue_ := rest } },
                some x)) := by
  have hout : s.stop.outputQueue_ = s.outputQueue_ := by
    by_cases hr : s.isRunning_ = true <;> simp [ProcessingSystem.stop, hr]
  refine ⟨hout, ?_, ?_, ?_⟩
  · by_cases hr : s.isRunning_ = true <;>
      simp [ProcessingSystem.stop, hr, DataQueue.shutdown]
  · intro hq hsd
    simp only [ProcessingSystem.getResult, hout, DataQueue.dequeue_eq,
               DataQueue.notEmptyPred, hq, hsd]
    simp [ht, ← hout]
  · intro x rest hq
    simp only [ProcessingSystem.getResult, hout, DataQueue.dequeue_eq,
               DataQueue.notEmptyPred, DataQueue.dequeueGo, hq]
    simp

theorem ProcessingSystem.stop_output_frame_witness :
    (1 : Int) > 0 ∧
    (⟨1, ⟨5, [], false⟩, ⟨5, [42], false⟩, 1, true, some "NumericProcessor",
        3, 0⟩ : ProcessingSystem Nat).stop.outputQueue_
      = (⟨1, ⟨5, [], false⟩, ⟨5, [42], false⟩, 1, true,
          some "NumericProcessor", 3, 0⟩ : ProcessingSystem Nat).outputQueue_ :=
  ⟨by decide,
   (ProcessingSystem.stop_output_frame
     (⟨1, ⟨5, [], false⟩, ⟨5, [42], false⟩, 1, true, some "NumericProcessor",
        3, 0⟩ : ProcessingSystem Nat) 1 (by decide)).1⟩

/-- `StatisticalProcessor` accumulator (Processor.h, lines 94-96):
`T total_ = 0; int count_ = 0`, at the integer item type. -/
structure StatisticalProcessor where
  total_ : Int
  count_ : Int
deriving DecidableEq

/-- A freshly constructed `StatisticalProcessor`. -/
def StatisticalProcessor.mkNew : StatisticalProcessor :=
  ⟨0, 0⟩

/-- `StatisticalProcessor::process` (Processor.h, lines 75-82): adds the
input to the running total, bumps the count, and returns
`total_ / count_`; C++ integer division truncates toward zero
(`Int.tdiv`). -/
def StatisticalProcessor.process (p : StatisticalProcessor) (input : Int) :
    Int × StatisticalProcessor :=
  (Int.tdiv (p.total_ + input) (p.count_ + 1), ⟨p.total_ + input, p.count_ + 1⟩)

/-- `StatisticalProcessor::reset` (Processor.h, lines 88-92). -/
def StatisticalProcessor.reset (_ : StatisticalProcessor) :
    StatisticalProcessor :=
  ⟨0, 0⟩

/-- Feeding the items of a list one at a time through the processor (a
single worker invokes it sequentially under the processor mutex),
collecting the outputs in order. -/
def StatisticalProcessor.runAll (p : StatisticalProcessor) :
    List Int → List Int
  | [] => []
  | x :: rest =>
    match p.process x with
    | (r, p2) => r :: p2.runAll rest

/-- C6: the running-average (statistical) strategy from a fresh
accumulator over the integer item type, applied sequentially to 10, 20,
30, returns 10, then 15, then 20 — the cumulative mean after each
item. -/
theorem StatisticalProcessor.running_average_10_20_30 :
    StatisticalProcessor.mkNew.runAll [10, 20, 30] = [10, 15, 20] := by
  decide

/-- `ProcessorType` (ProcessorFactory.h, lines 9-14). -/
inductive ProcessorType where
  | NUMERIC
  | STATISTICAL
  | FILTERING
  | AMPLIFICATION
deriving DecidableEq

/-- `params.count(key) ? params.at(key) : dflt` on the parameter map,
modelled as an association list. -/
def paramsAt (params : List (String × Rat)) (key : String) (dflt : Rat) :
    Rat :=
  match params.find? (fun p => p.1 == key) with
  | some p => p.2
  | none => dflt

/-- `static_cast<T>(double)` at an integer `T`: truncation toward zero. -/
def ratToIntTrunc (x : Rat) : Int :=
  Int.tdiv x.num (Int.ofNat x.den)

/-- The object a successful generic `ProcessorFactory<T>::createProcessor`
constructs at a numeric item type, with the parameters it stores (the
amplification gain stays a double). -/
inductive NumericItemProcessor where
  | numericP (multiplier : Int)
  | statisticalP
  | filteringP (threshold : Int)
  | amplificationP (gain : Rat)
deriving DecidableEq

/-- `ProcessorFactory<T>::createProcessor(type, params)`
(ProcessorFactory.h, lines 24-52) at a numeric item type; `throw
std::invalid_argument` is `Except.error`.  The C++ `default:` branch is
unreachable: `ProcessorType` has exactly the four values above. -/
def ProcessorFactory.createProcessor (type : ProcessorType)
    (params : List (String × Rat)) : Except String NumericItemProcessor :=
  match type with
  | ProcessorType.NUMERIC =>
    Except.ok (NumericItemProcessor.numericP
      (ratToIntTrunc (paramsAt params "multiplier" 2)))
  | ProcessorType.STATISTICAL =>
    Except.ok NumericItemProcessor.statisticalP
  | ProcessorType.FILTERING =>
    Except.ok (NumericItemProcessor.filteringP
      (ratToIntTrunc (paramsAt params "threshold" 0)))
  | ProcessorType.AMPLIFICATION =>
    Except.ok (NumericItemProcessor.amplificationP
      (paramsAt params "gain" (3 / 2)))

/-- The object a successful string-specialised factory call constructs. -/
inductive StringItemProcessor where
  | numericP (repetitions : Int)
deriving DecidableEq

/-- `ProcessorFactory<std::string>::createProcessor(type, params)`
(ProcessorFactory.h, lines 69-86): only NUMERIC (the repeat strategy)
is supported; the other three identifiers throw
`std::invalid_argument`. -/
def ProcessorFactoryString.createProcessor (type : ProcessorType)
    (params : List (String × Rat)) : Except String StringItemProcessor :=
  match type with
  | ProcessorType.NUMERIC =>
    Except.ok (StringItemProcessor.numericP
      (ratToIntTrunc (paramsAt params "repetitions" 2)))
  | ProcessorType.STATISTICAL =>
    Except.error "This processor type is not supported for strings"
  | ProcessorType.FILTERING =>
    Except.error "This processor type is not supported for strings"
  | ProcessorType.AMPLIFICATION =>
    Except.error "This processor type is not supported for strings"

/-- Whether a factory call succeeded (did not throw). -/
def exceptIsOk {E A : Type} : Except E A → Bool
  | Except.ok _ => true
  | Except.error _ => false

/-- C9: createProcessor fails with the invalid-configuration error
exactly when the identifier is unsupported for the item type: at a
numeric item type all four identifiers succeed for any parameters,
while at the string item type exactly the NUMERIC (repeat) identifier
succeeds and the statistical, filtering and amplification identifiers
fail. -/
theorem createProcessor_type_support (t : ProcessorType)
    (params : List (String × Rat)) :
    exceptIsOk (ProcessorFactory.createProcessor t params) = true ∧
    exceptIsOk (ProcessorFactoryString.createProcessor t params)
      = decide (t = ProcessorType.NUMERIC) := by
  cases t <;>
    simp [ProcessorFactory.createProcessor,
          ProcessorFactoryString.createProcessor, exceptIsOk]
